import Mathlib

/-!
Shallow embedding of the Basic-RAG repository (Python) in Lean 4.

Source files embedded:
  * src/src/document_loader.py  (DocumentProcessor.extract_annual_report_metadata)
  * src/src/conversation_memory.py  (ConversationMemory)
  * src/src/retriever.py  (Retriever.retrieve, Retriever.search_by_filters)
  * src/src/generator.py  (Generator._format_context and the three
    response-producing operations)
  * src/src/rag_app.py  (RAGApplication.chat)

Python strings are Lean `String`s; Python `needle in haystack` (substring
test) is `pyIn`; Python `str.lower()` is `pyLower`; Python `sep.join(parts)`
is `pyJoin`; Python list slicing `l[-k:]` is `pySliceLast` (note that for
`k = 0` Python returns the whole list since `-0 == 0`).  External services
(embedding API, vector database, LLM) are oracles passed as function
arguments returning `Except`, which models a Python call that either
returns normally or raises.
-/

namespace BasicRAG

/-- Python `needle in haystack` for strings: substring containment. -/
def pyIn (needle haystack : String) : Bool :=
  decide (needle.data <:+: haystack.data)

/-- Python `str.lower()`, character-wise lowering (all inputs of interest
are ASCII). -/
def pyLower (s : String) : String :=
  ⟨s.data.map Char.toLower⟩

/-- Python `sep.join(parts)`. -/
def pyJoin (sep : String) : List String → String
  | [] => ""
  | [x] => x
  | x :: y :: t => x ++ sep ++ pyJoin sep (y :: t)

/-- Python `l[-k:]`: the last `k` elements, except that `l[-0:]` is the
whole list (`-0 == 0` in Python, so the slice starts at index 0). -/
def pySliceLast {α : Type} (l : List α) (k : Nat) : List α :=
  if k = 0 then l else l.drop (l.length - k)

/-- `pyIn` decides literal substring occurrence. -/
theorem pyIn_iff (needle haystack : String) :
    pyIn needle haystack = true ↔
      ∃ s t : List Char, s ++ needle.data ++ t = haystack.data := by
  rw [pyIn, decide_eq_true_iff]
  exact Iff.rfl

/-! ### document_loader.py : extract_annual_report_metadata -/

/-- The fixed keyword list from `extract_annual_report_metadata`
(src/src/document_loader.py lines 86-91). -/
def financial_keywords : List String :=
  ["financial statement", "balance sheet", "income statement",
   "cash flow", "revenue", "profit", "loss", "assets", "liabilities",
   "shareholder", "dividend", "fiscal year", "quarterly report",
   "annual report", "financial performance", "financial results"]

/-- A document chunk: `page_content` plus the two metadata entries the
annotate pass touches (`chunk.metadata["contains_financial_info"]` and
`chunk.metadata["years_mentioned"]`); `none` models an absent dict key. -/
structure Chunk where
  page_content : String
  contains_financial_info : Option Bool
  years_mentioned : Option (List Nat)
deriving DecidableEq, Repr

/-- `[year for year in range(2000, 2030) if str(year) in chunk.page_content]`
(src/src/document_loader.py lines 107-110). -/
def yearsOf (text : String) : List Nat :=
  (List.range' 2000 30).filter (fun y => pyIn (toString y) text)

/-- The per-chunk body of `extract_annual_report_metadata`
(src/src/document_loader.py lines 95-115): sets
`contains_financial_info` from the keyword scan over the lowered text, and
sets `years_mentioned` only when the computed year list is non-empty
(`if years:`), leaving the existing entry untouched otherwise. -/
def annotateChunk (c : Chunk) : Chunk :=
  { page_content := c.page_content
    contains_financial_info :=
      some (financial_keywords.any (fun kw => pyIn kw (pyLower c.page_content)))
    years_mentioned :=
      if yearsOf c.page_content = [] then c.years_mentioned
      else some (yearsOf c.page_content) }

/-- `extract_annual_report_metadata`: iterates the per-chunk update and
returns the list of (updated) chunks. -/
def extract_annual_report_metadata (chunks : List Chunk) : List Chunk :=
  chunks.map annotateChunk

/-- The values of the chunks *passed in*, as observed after a call to
`extract_annual_report_metadata`.  The Python code mutates each chunk in
place (`chunk.metadata["contains_financial_info"] = ...`,
`chunk.metadata["years_mentioned"] = years`, lines 103 and 113) and appends
the very same chunk object to `enhanced_chunks` (line 115), so after the
call the i-th input chunk holds exactly the i-th returned value. -/
def extract_input_after_call (chunks : List Chunk) : List Chunk :=
  chunks.map annotateChunk

/-! ### conversation_memory.py : ConversationMemory -/

/-- A conversation message `{"role": ..., "content": ...}`. -/
structure Message where
  role : String
  content : String
deriving DecidableEq, Repr

/-- The `ConversationMemory` state: the message list and the `max_history`
bound fixed at construction. -/
structure ConversationMemory where
  messages : List Message
  max_history : Nat
deriving DecidableEq, Repr

namespace ConversationMemory

/-- `_trim_history` (src/src/conversation_memory.py lines 88-91):
`self.messages = self.messages[-self.max_history:]` when the list is too
long.  Note the Python slice: for `max_history = 0` the slice `[-0:]` is
the whole list, so nothing is trimmed. -/
def trim_history (m : ConversationMemory) : ConversationMemory :=
  if m.messages.length > m.max_history then
    { m with messages := pySliceLast m.messages m.max_history }
  else m

/-- `add_user_message`: append `{"role": "user", "content": message}` and
trim. -/
def add_user_message (m : ConversationMemory) (message : String) :
    ConversationMemory :=
  trim_history { m with messages := m.messages ++ [{ role := "user", content := message }] }

/-- `add_assistant_message`: append `{"role": "assistant", ...}` and trim. -/
def add_assistant_message (m : ConversationMemory) (message : String) :
    ConversationMemory :=
  trim_history { m with messages := m.messages ++ [{ role := "assistant", content := message }] }

/-- `get_context_string` (src/src/conversation_memory.py lines 60-81).
`num_messages = none` models Python `None`; the Python guard is
`num_messages is None or num_messages >= len(self.messages)`. -/
def get_context_string (m : ConversationMemory) (num_messages : Option Nat) :
    String :=
  let messages_to_include :=
    match num_messages with
    | none => m.messages
    | some n => if m.messages.length ≤ n then m.messages else pySliceLast m.messages n
  pyJoin "\n" (messages_to_include.map (fun msg =>
    (if msg.role = "user" then "User" else "Assistant") ++ ": " ++ msg.content))

end ConversationMemory

/-! ### retriever.py : Retriever -/

/-- A value carried by a `models.MatchValue(value=...)` match condition. -/
inductive MatchVal where
  | int (i : Int)
  | bool (b : Bool)
  | str (s : String)
deriving DecidableEq, Repr

/-- `models.FieldCondition(key=..., match=models.MatchValue(value=...))`. -/
structure FieldCondition where
  key : String
  value : MatchVal
deriving DecidableEq, Repr

/-- A `models.Filter(must=...)` is its must-list; `Option` at use sites
models passing `None` (no filter) versus a filter object. -/
abbrev Filter := List FieldCondition

/-- The `metadata` dict of a stored payload, as far as the retriever reads
it: only the `source` key is accessed (`payload.get("metadata", {}).get("source", "Unknown")`);
`none` models an absent key. -/
structure PayloadMeta where
  source : Option String
deriving DecidableEq, Repr

/-- A stored point payload `{text, metadata}`; `none` models absent keys
(the code reads them with `payload.get(key, default)`). -/
structure Payload where
  text : Option String
  metadata : Option PayloadMeta
deriving DecidableEq, Repr

/-- A scored point returned by `client.search`. -/
structure ScoredPoint where
  score : Rat
  payload : Payload
deriving DecidableEq, Repr

/-- A record returned by `client.scroll` (no score). -/
structure Record where
  payload : Payload
deriving DecidableEq, Repr

/-- The `Document` pydantic model of src/src/retriever.py lines 16-21.
Python floats never undergo arithmetic in the embedded code (scores are
only copied), so `score` is modelled as a rational. -/
structure Document where
  content : String
  source : String
  score : Rat
  metadata : PayloadMeta
deriving DecidableEq, Repr

/-- Python truthiness of `filter_params` (a dict or `None`): truthy iff it
is a non-empty dict. -/
def truthy_params : Option (List (String × MatchVal)) → Bool
  | none => false
  | some l => !l.isEmpty

/-- Python truthiness of `year` (an int or `None`): truthy iff it is an
int other than 0. -/
def truthy_int : Option Int → Bool
  | none => false
  | some y => y != 0

/-- Python truthiness of an optional string: truthy iff present and
non-empty. -/
def truthy_str : Option String → Bool
  | none => false
  | some s => !(s = "")

/-- The conditions contributed by `filter_params` in `retrieve`
(src/src/retriever.py lines 99-105): one `FieldCondition` per key/value
pair, in dict order. -/
def params_conditions : Option (List (String × MatchVal)) → List FieldCondition
  | none => []
  | some l => l.map (fun kv => { key := kv.1, value := kv.2 })

/-- The condition contributed by `year` (src/src/retriever.py lines
107-112): guarded by `if year:`, i.e. by Python truthiness, so `year = 0`
contributes nothing. -/
def year_conditions (year : Option Int) : List FieldCondition :=
  match year with
  | none => []
  | some y =>
    if y ≠ 0 then [{ key := "metadata.years_mentioned", value := .int y }] else []

/-- The condition contributed by `financial_only` (src/src/retriever.py
lines 114-119). -/
def financial_conditions (financial_only : Bool) : List FieldCondition :=
  if financial_only then
    [{ key := "metadata.contains_financial_info", value := .bool true }]
  else []

/-- The filter `Retriever.retrieve` builds and passes to `client.search`
(src/src/retriever.py lines 93-121): `None` unless
`filter_params or year or financial_only` is truthy, otherwise a
`Filter(must=...)` collecting the `filter_params` conditions, then the
year condition, then the financial condition. -/
def build_filter (filter_params : Option (List (String × MatchVal)))
    (year : Option Int) (financial_only : Bool) : Option Filter :=
  if truthy_params filter_params || truthy_int year || financial_only then
    some (params_conditions filter_params ++ year_conditions year ++
      financial_conditions financial_only)
  else
    none

/-- Result formatting in `retrieve` (src/src/retriever.py lines 133-141):
`Document(content=payload.get("text", ""), source=payload.get("metadata", {}).get("source", "Unknown"), score=point.score, metadata=payload.get("metadata", {}))`. -/
def scored_point_to_document (pt : ScoredPoint) : Document :=
  { content := pt.payload.text.getD ""
    source := (pt.payload.metadata.getD { source := none }).source.getD "Unknown"
    score := pt.score
    metadata := pt.payload.metadata.getD { source := none } }

/-- `Retriever.retrieve` (src/src/retriever.py lines 66-148).  The
embedding API and the vector database are oracles: `embed` models
`self.embedding_model.embed_query` and `search` models
`self.client.search` (taking the query vector, `k` and the filter);
`.error` models a raised exception.  The whole body runs inside
`try: ... except Exception: return []`. -/
def retrieve (embed : String → Except String (List Rat))
    (search : List Rat → Nat → Option Filter → Except String (List ScoredPoint))
    (query : String) (k : Nat) (filter_params : Option (List (String × MatchVal)))
    (year : Option Int) (financial_only : Bool) : List Document :=
  match embed query with
  | .error _ => []
  | .ok query_embedding =>
    match search query_embedding k (build_filter filter_params year financial_only) with
    | .error _ => []
    | .ok search_results => search_results.map scored_point_to_document

/-- The filter `Retriever.search_by_filters` builds (src/src/retriever.py
lines 170-194): financial condition first, then year, then source file
(each guarded by Python truthiness); `None` when no condition was added. -/
def scroll_filter (financial_only : Bool) (year : Option Int)
    (source_file : Option String) : Option Filter :=
  let must_conditions := financial_conditions financial_only ++
    year_conditions year ++
    (match source_file with
     | none => []
     | some s => if s ≠ "" then [{ key := "metadata.source", value := .str s }] else [])
  if must_conditions.isEmpty then none else some must_conditions

/-- Result formatting in `search_by_filters` (src/src/retriever.py lines
206-214): like `scored_point_to_document` but with the sentinel score 1.0. -/
def record_to_document (r : Record) : Document :=
  { content := r.payload.text.getD ""
    source := (r.payload.metadata.getD { source := none }).source.getD "Unknown"
    score := 1
    metadata := r.payload.metadata.getD { source := none } }

/-- `Retriever.search_by_filters` (src/src/retriever.py lines 150-221);
`scroll` models `self.client.scroll(...)[0]`, `.error` a raised
exception; the whole body runs inside `try: ... except: return []`. -/
def search_by_filters (scroll : Option Filter → Nat → Except String (List Record))
    (financial_only : Bool) (year : Option Int) (source_file : Option String)
    (limit : Nat) : List Document :=
  match scroll (scroll_filter financial_only year source_file) limit with
  | .error _ => []
  | .ok raw_docs => raw_docs.map record_to_document

/-! ### generator.py : Generator -/

/-- The block `f"[Document {i} from {doc.source}]\n{doc.content}\n"` of
`_format_context` (src/src/generator.py line 128). -/
def docBlock (i : Nat) (d : Document) : String :=
  "[Document " ++ toString i ++ " from " ++ d.source ++ "]\n" ++ d.content ++ "\n"

/-- `Generator._format_context` (src/src/generator.py lines 114-131):
`enumerate(documents, 1)` then `"\n".join(context_parts)`. -/
def format_context (documents : List Document) : String :=
  pyJoin "\n" ((documents.enumFrom 1).map (fun p => docBlock p.1 p.2))

/-- The plain-QA prompt template (src/src/generator.py lines 53-69). -/
def rag_prompt : String :=
  "You are an AI assistant specialized in providing information about technical manuals and company annual reports.\nUse the following retrieved context to answer the question. If you don\x27t know the answer or can\x27t find it in the context,\nsay that you don\x27t know and avoid making up information.\n\nContext:\n{context}\n\nQuestion: {question}\n\nWhen answering:\n1. Provide specific information from the documents when available\n2. Cite the source documents where the information came from\n3. If financial figures are mentioned, be precise with the numbers\n\nYour answer:\n"

/-- The conversational prompt template (src/src/generator.py lines 72-93). -/
def conversational_rag_prompt : String :=
  "You are an AI assistant specialized in providing information about technical manuals and company annual reports.\nUse the following retrieved context to answer the latest question. If you don\x27t know the answer or can\x27t find it in the context,\nsay that you don\x27t know and avoid making up information.\n\nHere is the conversation history:\n{conversation_history}\n\nRetrieved context:\n{context}\n\nLatest question: {question}\n\nWhen answering:\n1. Provide specific information from the documents when available\n2. Cite the source documents where the information came from\n3. If financial figures are mentioned, be precise with the numbers\n4. Be conversational and friendly, but focus on providing accurate information\n5. Only answer the latest question, don\x27t repeat previous answers unless asked to\n\nYour answer:\n"

/-- The financial-summary prompt template (src/src/generator.py lines
96-112). -/
def financial_summary_prompt : String :=
  "You are an AI financial analyst specialized in extracting and summarizing financial information from company annual reports.\n\nBased on the following retrieved context, create a concise summary of the financial performance.\n\nContext:\n{context}\n\nWhen summarizing:\n1. Focus on key financial metrics (revenue, profit, growth, etc.)\n2. Mention specific time periods and comparisons between periods when available\n3. Highlight any significant changes or trends\n4. Organize the information in a clear, structured way\n5. Cite the source documents for key information\n\nFinancial Summary:\n"

/-- `Generator.generate_response` (src/src/generator.py lines 133-167).
`llm` is the chain `prompt | self.llm | StrOutputParser()` as an oracle
from the filled prompt; `.error e` models a raised exception with message
`e`.  Returns the response text together with the number of LLM
invocations performed. -/
def generate_response (llm : String → Except String String) (query : String)
    (documents : List Document) : String × Nat :=
  if documents.isEmpty then
    ("I don\x27t have enough information to answer that question.", 0)
  else
    let context := format_context documents
    let prompt := (rag_prompt.replace "{context}" context).replace "{question}" query
    match llm prompt with
    | .ok response => (response, 1)
    | .error e => ("An error occurred while generating the response: " ++ e, 1)

/-- `Generator.generate_conversational_response` (src/src/generator.py
lines 169-216). -/
def generate_conversational_response (llm : String → Except String String)
    (query : String) (documents : List Document) (conversation_history : String) :
    String × Nat :=
  if documents.isEmpty then
    ("I don\x27t have enough information to answer that question.", 0)
  else
    let context := format_context documents
    let prompt := ((conversational_rag_prompt.replace "{context}" context).replace
      "{question}" query).replace "{conversation_history}" conversation_history
    match llm prompt with
    | .ok response => (response, 1)
    | .error e => ("An error occurred while generating the response: " ++ e, 1)

/-- `Generator.generate_financial_summary` (src/src/generator.py lines
218-250). -/
def generate_financial_summary (llm : String → Except String String)
    (documents : List Document) : String × Nat :=
  if documents.isEmpty then
    ("No financial information is available to summarize.", 0)
  else
    let context := format_context documents
    let prompt := financial_summary_prompt.replace "{context}" context
    match llm prompt with
    | .ok response => (response, 1)
    | .error e => ("An error occurred while generating the financial summary: " ++ e, 1)

/-! ### rag_app.py : RAGApplication.chat -/

/-- `RAGApplication.chat` (src/src/rag_app.py lines 137-196).
`retrieveFn` models `self.retriever.retrieve` (already exception-free, see
`retrieve`), `genFn` models
`self.generator.generate_conversational_response` applied to
(query, documents, history) — also exception-free.  The result is
(returned response, conversation memory after the call, number of
Generator invocations). -/
def chat (retrieveFn : String → Nat → Option Int → Bool → List Document)
    (genFn : String → List Document → String → String)
    (mem : ConversationMemory) (query_text : String) (k : Nat)
    (year : Option Int) (financial_only : Bool)
    (conversation_context_size : Nat) : String × ConversationMemory × Nat :=
  let mem1 := mem.add_user_message query_text
  let documents := retrieveFn query_text k year financial_only
  if documents.isEmpty then
    let response := "No relevant documents found to answer your query."
    (response, mem1.add_assistant_message response, 0)
  else
    let conversation_history := mem1.get_context_string (some conversation_context_size)
    let response := genFn query_text documents conversation_history
    (response, mem1.add_assistant_message response, 1)

/-! ### Definitions written from the specification, for refinement claims -/

/-- Written from the words of the spec (section 4.4) for claim C2: the
filter is the conjunction of exactly the supplied criteria — one condition
per `filter_params` pair, one `metadata.years_mentioned` condition whenever
a year is supplied, the `metadata.contains_financial_info == true`
condition when `financial_only` — and no filter at all when no criterion is
supplied. -/
def claimed_filter (filter_params : Option (List (String × MatchVal)))
    (year : Option Int) (financial_only : Bool) : Option Filter :=
  let conds := params_conditions filter_params ++
    (match year with
     | none => []
     | some y => [{ key := "metadata.years_mentioned", value := .int y }]) ++
    financial_conditions financial_only
  if conds.isEmpty then none else some conds

/-- Like `claimed_filter`, but a year criterion counts as supplied only
when it is nonzero: Python truthiness (`if year:`) treats `year = 0` like
an absent year.  This is the amended reading of claim C2. -/
def claimed_filter_truthy (filter_params : Option (List (String × MatchVal)))
    (year : Option Int) (financial_only : Bool) : Option Filter :=
  let conds := params_conditions filter_params ++ year_conditions year ++
    financial_conditions financial_only
  if conds.isEmpty then none else some conds

/-- Written from the words of the spec (section 4.5) for claim C7: the
context renders documents numbered from `i` upward, in input order, each
as its `docBlock`, with consecutive blocks joined by one newline (each
block already ends in a newline, so blocks are separated by a blank
line). -/
def contextBlocks : Nat → List Document → String
  | _, [] => ""
  | i, [d] => docBlock i d
  | i, d :: e :: es => docBlock i d ++ "\n" ++ contextBlocks (i + 1) (e :: es)

/-! ### Supporting lemmas -/

theorem mem_yearsOf (text : String) (y : Nat) :
    y ∈ yearsOf text ↔
      2000 ≤ y ∧ y < 2030 ∧ pyIn (toString y) text = true := by
  unfold yearsOf
  rw [List.mem_filter, List.mem_range'_1]
  constructor
  · rintro ⟨⟨h1, h2⟩, h3⟩
    exact ⟨h1, h2, h3⟩
  · rintro ⟨h1, h2, h3⟩
    exact ⟨⟨h1, h2⟩, h3⟩

theorem annotateChunk_idem (c : Chunk) :
    annotateChunk (annotateChunk c) = annotateChunk c := by
  unfold annotateChunk
  by_cases h : yearsOf c.page_content = [] <;> simp [h]

theorem trim_history_of_le (m : ConversationMemory)
    (h : m.messages.length ≤ m.max_history) :
    m.trim_history = m := by
  unfold ConversationMemory.trim_history
  rw [if_neg (by omega)]

theorem trim_append_eq (m : ConversationMemory) (x : Message)
    (hmax : 1 ≤ m.max_history) :
    (ConversationMemory.trim_history
        { m with messages := m.messages ++ [x] }).messages =
      (m.messages ++ [x]).drop (m.messages.length + 1 - m.max_history) := by
  unfold ConversationMemory.trim_history
  by_cases h : (m.messages ++ [x]).length > m.max_history
  · have hk : ¬ (m.max_history = 0) := by omega
    rw [if_pos h]
    unfold pySliceLast
    rw [if_neg hk]
    simp [List.length_append]
  · rw [if_neg h]
    have h0 : m.messages.length + 1 - m.max_history = 0 := by
      simp only [List.length_append, List.length_cons, List.length_nil] at h
      omega
    simp [h0]

theorem list_isEmpty_append {α : Type} (l1 l2 : List α) :
    (l1 ++ l2).isEmpty = (l1.isEmpty && l2.isEmpty) := by
  cases l1 <;> simp [List.isEmpty]

theorem params_conditions_isEmpty (fp : Option (List (String × MatchVal))) :
    (params_conditions fp).isEmpty = !truthy_params fp := by
  rcases fp with _ | (_ | ⟨a, l⟩) <;> rfl

theorem year_conditions_isEmpty (year : Option Int) :
    (year_conditions year).isEmpty = !truthy_int year := by
  rcases year with _ | y
  · rfl
  · by_cases h : y = 0 <;> simp [year_conditions, truthy_int, h]

theorem financial_conditions_isEmpty (financial_only : Bool) :
    (financial_conditions financial_only).isEmpty = !financial_only := by
  cases financial_only <;> rfl

theorem pyJoin_enumFrom_docBlock (i : Nat) (documents : List Document) :
    pyJoin "\n" ((documents.enumFrom i).map (fun p => docBlock p.1 p.2)) =
      contextBlocks i documents := by
  induction documents generalizing i with
  | nil => rfl
  | cons d ds ih =>
    cases ds with
    | nil => rfl
    | cons e es =>
      simp only [List.enumFrom, List.map, pyJoin, contextBlocks]
      rw [← ih (i + 1)]
      simp [List.enumFrom, List.map]

/-! ### Claim theorems -/

/-- C1 (amended): for a chunk whose `years_mentioned` entry is absent, the
annotate pass sets `years_mentioned` to exactly the set of integers `y`
with `2000 ≤ y < 2030` whose decimal representation occurs as a literal
substring of the chunk text, and leaves the field absent when no such year
occurs.  (The claim as stated used the range `[2000, 2029)`; the code
iterates `range(2000, 2030)`, so 2029 is included — see the
counterexample.) -/
theorem annotate_years_mentioned (c : Chunk) (h : c.years_mentioned = none) :
    (∀ ys, (annotateChunk c).years_mentioned = some ys →
      ∀ y, y ∈ ys ↔
        (2000 ≤ y ∧ y < 2030 ∧ pyIn (toString y) c.page_content = true)) ∧
    ((annotateChunk c).years_mentioned = none ↔
      ∀ y, 2000 ≤ y → y < 2030 → pyIn (toString y) c.page_content = false) := by
  have hnil : yearsOf c.page_content = [] ↔
      ∀ y, 2000 ≤ y → y < 2030 → pyIn (toString y) c.page_content = false := by
    rw [List.eq_nil_iff_forall_not_mem]
    constructor
    · intro hall y h1 h2
      have hy := hall y
      rw [mem_yearsOf] at hy
      cases hb : pyIn (toString y) c.page_content
      · rfl
      · exact absurd ⟨h1, h2, hb⟩ hy
    · intro hall y hy
      rw [mem_yearsOf] at hy
      obtain ⟨h1, h2, h3⟩ := hy
      rw [hall y h1 h2] at h3
      cases h3
  have hcase : (annotateChunk c).years_mentioned = none ↔
      yearsOf c.page_content = [] := by
    by_cases hempty : yearsOf c.page_content = [] <;>
      simp [annotateChunk, hempty, h]
  constructor
  · intro ys hys y
    by_cases hempty : yearsOf c.page_content = []
    · simp [annotateChunk, hempty, h] at hys
    · simp only [annotateChunk, if_neg hempty, Option.some.injEq] at hys
      subst hys
      exact mem_yearsOf c.page_content y
  · rw [hcase]
    exact hnil

/-- C1 witness: on the chunk `"2022"` (no prior metadata) the annotate
pass yields `years_mentioned = some [2022]`, and membership is
characterised as claimed. -/
theorem annotate_years_mentioned_witness :
    2022 ∈ [2022] ↔
      (2000 ≤ 2022 ∧ 2022 < 2030 ∧ pyIn (toString 2022) "2022" = true) :=
  (annotate_years_mentioned ⟨"2022", none, none⟩ rfl).1 [2022] (by decide) 2022

/-- C1 counterexample: the chunk `"2029"` contains no year in
`[2000, 2029)`, so the claim as stated demands an absent field, but the
code (which iterates `range(2000, 2030)`) sets
`years_mentioned = [2029]`. -/
theorem annotate_years_mentioned_counterexample :
    (annotateChunk ⟨"2029", none, none⟩).years_mentioned = some [2029] ∧
    ¬ (2029 < 2029) :=
  ⟨by decide, by decide⟩

/-- C2 (amended): the filter `Retriever.retrieve` sends to the vector
database is the conjunction of exactly the supplied criteria, where —
because of Python truthiness in `if year:` — a year criterion counts as
supplied only when the year is nonzero (`year = 0` is treated like no
year, and an empty `filter_params` dict like `None`); when no criterion
remains, no filter is passed at all. -/
theorem build_filter_eq_claimed (filter_params : Option (List (String × MatchVal)))
    (year : Option Int) (financial_only : Bool) :
    build_filter filter_params year financial_only =
      claimed_filter_truthy filter_params year financial_only := by
  have hempty : (params_conditions filter_params ++ year_conditions year ++
      financial_conditions financial_only).isEmpty =
      (!truthy_params filter_params && !truthy_int year && !financial_only) := by
    rw [list_isEmpty_append, list_isEmpty_append, params_conditions_isEmpty,
      year_conditions_isEmpty, financial_conditions_isEmpty]
  cases hg : (truthy_params filter_params || truthy_int year || financial_only)
  · obtain ⟨⟨ha, hb⟩, hc⟩ :
        (truthy_params filter_params = false ∧ truthy_int year = false) ∧
          financial_only = false := by
      constructor
      · constructor
        · cases hp : truthy_params filter_params
          · rfl
          · rw [hp] at hg; simp at hg
        · cases hy : truthy_int year
          · rfl
          · rw [hy] at hg; simp at hg
      · cases hf : financial_only
        · rfl
        · rw [hf] at hg; simp at hg
    have hTrue : (params_conditions filter_params ++ year_conditions year ++
        financial_conditions financial_only).isEmpty = true := by
      rw [hempty, ha, hb, hc]
      rfl
    obtain ⟨hp, hy, hf⟩ : params_conditions filter_params = [] ∧
        year_conditions year = [] ∧ financial_conditions financial_only = [] := by
      have hall := List.isEmpty_iff.mp hTrue
      simpa [List.append_eq_nil] using hall
    simp [build_filter, claimed_filter_truthy, hg, hp, hy, hf]
  · have hFalse : (params_conditions filter_params ++ year_conditions year ++
        financial_conditions financial_only).isEmpty = false := by
      rw [hempty, ← Bool.not_or, ← Bool.not_or, hg]
      rfl
    have hne : ¬ (params_conditions filter_params = [] ∧
        year_conditions year = [] ∧ financial_conditions financial_only = []) := by
      rintro ⟨hp, hy, hf⟩
      have hq : (params_conditions filter_params ++ year_conditions year ++
          financial_conditions financial_only).isEmpty = true := by
        rw [hp, hy, hf]
        rfl
      rw [hFalse] at hq
      cases hq
    simp [build_filter, claimed_filter_truthy, hg, hne]

/-- C2 counterexample: with `year = 0` supplied and no other criterion,
the code passes no filter at all (Python `if year:` is false at 0), while
the claim as stated demands a filter with one `metadata.years_mentioned`
condition. -/
theorem build_filter_counterexample :
    build_filter none (some 0) false = none ∧
    claimed_filter none (some 0) false =
      some [{ key := "metadata.years_mentioned", value := .int 0 }] :=
  ⟨rfl, rfl⟩

/-- C3: `Retriever.retrieve` and `Retriever.search_by_filters` are total
(the embedding returns a plain `List Document`, never an exception), and
whenever an internal step fails — the embedding call, the vector search,
or the scroll — the result is the empty list. -/
theorem retriever_failure_empty
    (embed : String → Except String (List Rat))
    (search : List Rat → Nat → Option Filter → Except String (List ScoredPoint))
    (scroll : Option Filter → Nat → Except String (List Record))
    (query : String) (k : Nat) (filter_params : Option (List (String × MatchVal)))
    (year : Option Int) (financial_only : Bool) (source_file : Option String)
    (limit : Nat) :
    (∀ e, embed query = .error e →
      retrieve embed search query k filter_params year financial_only = []) ∧
    (∀ v e, embed query = .ok v →
      search v k (build_filter filter_params year financial_only) = .error e →
      retrieve embed search query k filter_params year financial_only = []) ∧
    (∀ e, scroll (scroll_filter financial_only year source_file) limit = .error e →
      search_by_filters scroll financial_only year source_file limit = []) := by
  refine ⟨?_, ?_, ?_⟩
  · intro e he
    simp [retrieve, he]
  · intro v e hv hs
    simp [retrieve, hv, hs]
  · intro e he
    simp [search_by_filters, he]

/-- C3 witness: with oracles that raise, both operations return the empty
list. -/
theorem retriever_failure_empty_witness :
    retrieve (fun _ => .error "network down") (fun _ _ _ => .error "network down")
        "q" 5 none none false = [] ∧
    search_by_filters (fun _ _ => .error "network down") false none none 10 = [] :=
  ⟨(retriever_failure_empty (fun _ => .error "network down")
      (fun _ _ _ => .error "network down") (fun _ _ => .error "network down")
      "q" 5 none none false none 10).1 "network down" rfl,
   (retriever_failure_empty (fun _ => .error "network down")
      (fun _ _ _ => .error "network down") (fun _ _ => .error "network down")
      "q" 5 none none false none 10).2.2 "network down" rfl⟩

/-- C4 (amended): starting from a state with at most `max_history`
messages, where `max_history ≥ 1`, each of `add_user_message` and
`add_assistant_message` leaves at most `max_history` messages, and the
retained messages are exactly the most recent suffix of the appended
list.  (The claim as stated fails at `max_history = 0`: the Python trim
slice `messages[-0:]` is the whole list, so nothing is ever trimmed — see
the counterexample.) -/
theorem conversation_memory_cap (m : ConversationMemory) (s : String)
    (hmax : 1 ≤ m.max_history) (hlen : m.messages.length ≤ m.max_history) :
    ((m.add_user_message s).messages =
        (m.messages ++ [Message.mk "user" s]).drop
          (m.messages.length + 1 - m.max_history) ∧
      (m.add_user_message s).messages.length ≤ m.max_history) ∧
    ((m.add_assistant_message s).messages =
        (m.messages ++ [Message.mk "assistant" s]).drop
          (m.messages.length + 1 - m.max_history) ∧
      (m.add_assistant_message s).messages.length ≤ m.max_history) := by
  have h1 := trim_append_eq m { role := "user", content := s } hmax
  have h2 := trim_append_eq m { role := "assistant", content := s } hmax
  refine ⟨⟨h1, ?_⟩, ⟨h2, ?_⟩⟩
  · show (ConversationMemory.trim_history _).messages.length ≤ m.max_history
    rw [h1, List.length_drop]
    simp only [List.length_append, List.length_cons, List.length_nil]
    omega
  · show (ConversationMemory.trim_history _).messages.length ≤ m.max_history
    rw [h2, List.length_drop]
    simp only [List.length_append, List.length_cons, List.length_nil]
    omega

/-- C4 witness: from the empty memory with `max_history = 10`, adding a
user message keeps the bound and retains the appended message. -/
theorem conversation_memory_cap_witness :
    ((((⟨[], 10⟩ : ConversationMemory).add_user_message "hi").messages =
        [{ role := "user", content := "hi" }] ∧
      ((⟨[], 10⟩ : ConversationMemory).add_user_message "hi").messages.length ≤ 10) ∧
     (((⟨[], 10⟩ : ConversationMemory).add_assistant_message "hi").messages =
        [{ role := "assistant", content := "hi" }] ∧
      ((⟨[], 10⟩ : ConversationMemory).add_assistant_message "hi").messages.length ≤ 10)) :=
  conversation_memory_cap ⟨[], 10⟩ "hi" (by decide) (by decide)

/-- C4 counterexample: with `max_history = 0` (a state with at most 0
messages), one `add_user_message` leaves 1 > 0 messages: the trim slice
`messages[-0:]` is the whole list. -/
theorem conversation_memory_cap_counterexample :
    ¬ (((⟨[], 0⟩ : ConversationMemory).add_user_message "hi").messages.length ≤
        (⟨[], 0⟩ : ConversationMemory).max_history) := by
  decide

/-- C5: when retrieval yields zero documents, `chat` returns the
no-results sentinel, performs zero Generator invocations, and the
resulting memory is the input memory with the user question appended
first and then the sentinel answer (exactly two appended messages when
capacity allows). -/
theorem chat_no_results
    (retrieveFn : String → Nat → Option Int → Bool → List Document)
    (genFn : String → List Document → String → String)
    (mem : ConversationMemory) (query_text : String) (k : Nat)
    (year : Option Int) (financial_only : Bool) (ctx : Nat)
    (hret : retrieveFn query_text k year financial_only = []) :
    chat retrieveFn genFn mem query_text k year financial_only ctx =
      ("No relevant documents found to answer your query.",
        (mem.add_user_message query_text).add_assistant_message
          "No relevant documents found to answer your query.", 0) ∧
    (mem.messages.length + 2 ≤ mem.max_history →
      (chat retrieveFn genFn mem query_text k year financial_only ctx).2.1.messages =
        mem.messages ++
          [Message.mk "user" query_text,
           Message.mk "assistant"
             "No relevant documents found to answer your query."]) := by
  have hchat : chat retrieveFn genFn mem query_text k year financial_only ctx =
      ("No relevant documents found to answer your query.",
        (mem.add_user_message query_text).add_assistant_message
          "No relevant documents found to answer your query.", 0) := by
    simp [chat, hret]
  refine ⟨hchat, ?_⟩
  intro hcap
  rw [hchat]
  have hu : mem.add_user_message query_text =
      ⟨mem.messages ++ [Message.mk "user" query_text],
        mem.max_history⟩ := by
    unfold ConversationMemory.add_user_message
    rw [trim_history_of_le]
    simp only [List.length_append, List.length_cons, List.length_nil]
    omega
  rw [hu]
  unfold ConversationMemory.add_assistant_message
  rw [trim_history_of_le]
  · simp
  · simp only [List.length_append, List.length_cons, List.length_nil]
    omega

/-- C5 witness: a concrete chat call with an empty retrieval result. -/
theorem chat_no_results_witness :
    chat (fun _ _ _ _ => []) (fun _ _ _ => "") (⟨[], 20⟩ : ConversationMemory)
        "What was 2022 revenue?" 5 none false 5 =
      ("No relevant documents found to answer your query.",
        ((⟨[], 20⟩ : ConversationMemory).add_user_message
            "What was 2022 revenue?").add_assistant_message
          "No relevant documents found to answer your query.", 0) ∧
    (chat (fun _ _ _ _ => []) (fun _ _ _ => "") (⟨[], 20⟩ : ConversationMemory)
        "What was 2022 revenue?" 5 none false 5).2.1.messages =
      [{ role := "user", content := "What was 2022 revenue?" },
       { role := "assistant",
         content := "No relevant documents found to answer your query." }] :=
  ⟨(chat_no_results (fun _ _ _ _ => []) (fun _ _ _ => "") ⟨[], 20⟩
      "What was 2022 revenue?" 5 none false 5 rfl).1,
   (chat_no_results (fun _ _ _ _ => []) (fun _ _ _ => "") ⟨[], 20⟩
      "What was 2022 revenue?" 5 none false 5 rfl).2 (by decide)⟩

/-- C6: each of the three Generator operations, on an empty document
list, returns its fixed sentinel string with zero LLM invocations, for
every LLM oracle. -/
theorem generator_empty_documents (llm : String → Except String String)
    (query conversation_history : String) :
    generate_response llm query [] =
        ("I don\x27t have enough information to answer that question.", 0) ∧
    generate_conversational_response llm query [] conversation_history =
        ("I don\x27t have enough information to answer that question.", 0) ∧
    generate_financial_summary llm [] =
        ("No financial information is available to summarize.", 0) :=
  ⟨rfl, rfl, rfl⟩

/-- C7: `_format_context` renders the documents as blocks numbered 1..n
in input order, consecutive blocks separated by a blank line (each block
ends with a newline and blocks are joined by a newline), as described by
the spec-side `contextBlocks`. -/
theorem format_context_spec (documents : List Document) :
    format_context documents = contextBlocks 1 documents :=
  pyJoin_enumFrom_docBlock 1 documents

/-- C8: the annotate pass sets `contains_financial_info` to true iff some
keyword of the fixed list occurs in the lowercased chunk text
(case-insensitive matching: the keywords are lowercase); in particular
both `"Revenue increased"` and `"revenue increased"` are tagged true. -/
theorem annotate_contains_financial_info (c : Chunk) :
    ((annotateChunk c).contains_financial_info = some true ↔
      ∃ kw, kw ∈ financial_keywords ∧ pyIn kw (pyLower c.page_content) = true) ∧
    (annotateChunk ⟨"Revenue increased", none, none⟩).contains_financial_info =
      some true ∧
    (annotateChunk ⟨"revenue increased", none, none⟩).contains_financial_info =
      some true := by
  refine ⟨?_, by decide, by decide⟩
  simp only [annotateChunk, Option.some.injEq, List.any_eq_true]

/-- C9 (amended): the annotate pass is idempotent — applying
`extract_annual_report_metadata` twice equals applying it once — but it is
not side-effect-free on its input: the chunks passed in are mutated in
place, so their values after the call coincide with the returned chunks. -/
theorem extract_metadata_idempotent (chunks : List Chunk) :
    extract_annual_report_metadata (extract_annual_report_metadata chunks) =
        extract_annual_report_metadata chunks ∧
    extract_input_after_call chunks = extract_annual_report_metadata chunks := by
  refine ⟨?_, rfl⟩
  unfold extract_annual_report_metadata
  rw [List.map_map]
  exact List.map_congr_left (fun c _ => annotateChunk_idem c)

/-- C9 counterexample: the input chunk is mutated by the call — after
`extract_annual_report_metadata([chunk])` the chunk passed in no longer
holds its original value (its `contains_financial_info` entry was set). -/
theorem extract_metadata_counterexample :
    extract_input_after_call [⟨"", none, none⟩] ≠ [⟨"", none, none⟩] := by
  decide

/-- C10: `get_context_string` with `num_messages = 0` on a non-empty
history returns the same string as `num_messages = None` (all messages,
not zero): the Python slice `messages[-0:]` is the whole list. -/
theorem get_context_string_zero (m : ConversationMemory)
    (h : m.messages ≠ []) :
    m.get_context_string (some 0) = m.get_context_string none := by
  unfold ConversationMemory.get_context_string
  have hlen : ¬ m.messages.length ≤ 0 := by
    simpa [List.length_eq_zero] using h
  simp [hlen, pySliceLast]

/-- C10 witness: a one-message history. -/
theorem get_context_string_zero_witness :
    (⟨[{ role := "user", content := "hi" }], 10⟩ : ConversationMemory).get_context_string
        (some 0) =
      (⟨[{ role := "user", content := "hi" }], 10⟩ : ConversationMemory).get_context_string
        none :=
  get_context_string_zero ⟨[{ role := "user", content := "hi" }], 10⟩ (by decide)

end BasicRAG
